import Mathlib

/-!
Verification of the needs-based insurance recommendation engine
(`app/recommendation/needs_engine.py`).

The engine is a pure function from a user profile to an ordered list of
policy recommendations.  We embed the profile and recommendation records,
the confidence scorer, the priority-band derivation, the personalised
messaging and the assembler, and prove the spec's claims about them.
Python integers are embedded as `ℤ`, monetary quantities as `ℚ`, and the
nullable premium field as `Option ℚ`.
-/

namespace NeedsEngine

/-- The user profile consumed by `recommend_policies` (the fields the engine
reads from the profile dict, plus the advisory `employment_type`). -/
structure Profile where
  age : ℤ
  monthly_income : ℚ
  dependants : ℤ
  employment_type : String
  owns_car : Bool
  owns_home : Bool
deriving DecidableEq

/-- A recommended cover is either a numeric amount or a descriptive string
(the vehicle / home cases). -/
inductive Cover where
  | num (amount : ℚ)
  | text (s : String)
deriving DecidableEq

/-- One output record of the engine. `estimated_monthly_premium` is nullable
in the output schema, hence `Option ℚ`. -/
structure Recommendation where
  policy_type : String
  provider_name : String
  confidence_score : ℤ
  priority_band : String
  recommended_cover : Cover
  estimated_monthly_premium : Option ℚ
  best_for : List String
  why_it_matters : List String
deriving DecidableEq

/-- Embedding of `resolve_provider`: the provider lookup table with its
default value. -/
def resolve_provider (policy_type : String) : String :=
  if policy_type = "Life Insurance" then "Sanlam"
  else if policy_type = "Funeral Cover" then "AVBOB"
  else if policy_type = "Accidental Cover" then "Old Mutual"
  else if policy_type = "Vehicle Insurance" then "OUTsurance"
  else if policy_type = "Home & Contents Insurance" then "Santam"
  else "Insurance Provider"

/-- Embedding of `calculate_confidence`: base 50, per-policy additive
bonuses, capped at 100 by `min`. -/
def calculate_confidence (profile : Profile) (policy_type : String) : ℤ :=
  let income := profile.monthly_income
  let dependants := profile.dependants
  let owns_car := profile.owns_car
  let owns_home := profile.owns_home
  let score : ℤ :=
    if policy_type = "Life Insurance" then
      50 + (if dependants > 0 then 30 else 0) + (if income ≥ 15000 then 10 else 0)
    else if policy_type = "Funeral Cover" then
      50 + 30 + (if dependants > 0 then 10 else 0)
    else if policy_type = "Accidental Cover" then
      50 + (if income > 0 then 25 else 0)
    else if policy_type = "Vehicle Insurance" then
      50 + (if owns_car then 40 else 0)
    else if policy_type = "Home & Contents Insurance" then
      50 + (if owns_home then 35 else 0) + (if income ≥ 20000 then 5 else 0)
    else (50 : ℤ)
  min score 100

/-- Embedding of `derive_priority_band`. -/
def derive_priority_band (confidence_score : ℤ) : String :=
  if confidence_score ≥ 85 then "best"
  else if confidence_score ≥ 70 then "medium"
  else "optional"

/-- Floor of a rational, computed from its reduced numerator and positive
denominator. -/
def qfloor (q : ℚ) : ℤ := Int.fdiv q.num (q.den : ℤ)

/-- Round a rational to the nearest integer, ties to even — the behaviour of
Python's `round` on the idealised (exact) value. -/
def roundHalfEven (q : ℚ) : ℤ :=
  let f := qfloor q
  let r := q - (f : ℚ)
  if r < 1/2 then f
  else if r > 1/2 then f + 1
  else if f % 2 = 0 then f else f + 1

/-- Embedding of `round(x, 2)`: round to two decimal places. -/
def round2 (q : ℚ) : ℚ := (roundHalfEven (q * 100) : ℚ) / 100

/-- Embedding of `personalise_why_it_matters`: one age-band reason followed
by one income-band reason. -/
def personalise_why_it_matters (profile : Profile) : List String :=
  let age := profile.age
  let income := profile.monthly_income
  (if age ≤ 25 then [("Well suited to your age group")]
   else if 26 ≤ age ∧ age ≤ 40 then [("Relevant for your current life stage")]
   else [("Important protection as responsibilities grow")]) ++
  (if income ≤ 10000 then [("Designed to fit a tight budget")]
   else if income ≤ 30000 then [("Fits comfortably within your budget")]
   else [("Provides strong cover without straining your budget")])

/-- The Life Insurance record built by `recommend_policies` when
`dependants > 0`. -/
def life_recommendation (p : Profile) : Recommendation :=
  let annual_income := p.monthly_income * 12
  let cover := annual_income * 10
  let confidence := calculate_confidence p ("Life Insurance")
  { policy_type := "Life Insurance"
    provider_name := resolve_provider ("Life Insurance")
    confidence_score := confidence
    priority_band := derive_priority_band confidence
    recommended_cover := Cover.num cover
    estimated_monthly_premium := some (round2 (cover * 0.0015))
    best_for := [("People with dependants"), ("Households relying on a main income")]
    why_it_matters :=
      [("Provides long-term financial protection"),
       ("Helps cover living costs, debt, and education")] ++ personalise_why_it_matters p }

/-- The Funeral Cover record built unconditionally by `recommend_policies`. -/
def funeral_recommendation (p : Profile) : Recommendation :=
  let funeral_cover : ℤ := 50000 + p.dependants * 25000
  let confidence := calculate_confidence p ("Funeral Cover")
  { policy_type := "Funeral Cover"
    provider_name := resolve_provider ("Funeral Cover")
    confidence_score := confidence
    priority_band := derive_priority_band confidence
    recommended_cover := Cover.num (funeral_cover : ℚ)
    estimated_monthly_premium := some (round2 ((funeral_cover : ℚ) * 0.002))
    best_for := [("All households"), ("Families with dependants")]
    why_it_matters :=
      [("Covers immediate funeral expenses"),
       ("Pays out quickly when cash is needed")] ++ personalise_why_it_matters p }

/-- The Accidental Cover record built by `recommend_policies` when
`monthly_income > 0`. -/
def accidental_recommendation (p : Profile) : Recommendation :=
  let annual_income := p.monthly_income * 12
  let cover := annual_income * 5
  let confidence := calculate_confidence p ("Accidental Cover")
  { policy_type := "Accidental Cover"
    provider_name := resolve_provider ("Accidental Cover")
    confidence_score := confidence
    priority_band := derive_priority_band confidence
    recommended_cover := Cover.num cover
    estimated_monthly_premium := some (round2 (cover * 0.002))
    best_for := [("Young professionals"), ("Active individuals")]
    why_it_matters :=
      [("Covers accidental injury and disability"),
       ("Protects your income if you cannot work")] ++ personalise_why_it_matters p }

/-- The Vehicle Insurance record built by `recommend_policies` when
`owns_car` holds; note the premium is derived from `monthly_income`, not
from the (descriptive) cover. -/
def vehicle_recommendation (p : Profile) : Recommendation :=
  let confidence := calculate_confidence p ("Vehicle Insurance")
  { policy_type := "Vehicle Insurance"
    provider_name := resolve_provider ("Vehicle Insurance")
    confidence_score := confidence
    priority_band := derive_priority_band confidence
    recommended_cover := Cover.text ("Market value of the vehicle")
    estimated_monthly_premium := some (round2 (p.monthly_income * 0.03))
    best_for := [("Vehicle owners"), ("Daily commuters")]
    why_it_matters :=
      [("Protects against accidents and theft"),
       ("Avoids large, unexpected repair costs")] ++ personalise_why_it_matters p }

/-- The Home & Contents record built by `recommend_policies` when
`owns_home` holds; the premium is again derived from `monthly_income`. -/
def home_recommendation (p : Profile) : Recommendation :=
  let confidence := calculate_confidence p ("Home & Contents Insurance")
  { policy_type := "Home & Contents Insurance"
    provider_name := resolve_provider ("Home & Contents Insurance")
    confidence_score := confidence
    priority_band := derive_priority_band confidence
    recommended_cover := Cover.text ("Replacement value of home and contents")
    estimated_monthly_premium := some (round2 (p.monthly_income * 0.02))
    best_for := [("Homeowners"), ("Property investors")]
    why_it_matters :=
      [("Protects your home and belongings"),
       ("Safeguards your biggest financial asset")] ++ personalise_why_it_matters p }

/-- Embedding of `recommend_policies`: each block appended in source order,
guarded by its applicability condition. -/
def recommend_policies (p : Profile) : List Recommendation :=
  (if p.dependants > 0 then [life_recommendation p] else []) ++
  [funeral_recommendation p] ++
  (if p.monthly_income > 0 then [accidental_recommendation p] else []) ++
  (if p.owns_car then [vehicle_recommendation p] else []) ++
  (if p.owns_home then [home_recommendation p] else [])

/-- The rule-specific `why_it_matters` entries hard-coded in each policy
block of `recommend_policies`, keyed by policy type. -/
def rule_specific_reasons (policy_type : String) : List String :=
  if policy_type = "Life Insurance" then
    [("Provides long-term financial protection"),
     ("Helps cover living costs, debt, and education")]
  else if policy_type = "Funeral Cover" then
    [("Covers immediate funeral expenses"),
     ("Pays out quickly when cash is needed")]
  else if policy_type = "Accidental Cover" then
    [("Covers accidental injury and disability"),
     ("Protects your income if you cannot work")]
  else if policy_type = "Vehicle Insurance" then
    [("Protects against accidents and theft"),
     ("Avoids large, unexpected repair costs")]
  else if policy_type = "Home & Contents Insurance" then
    [("Protects your home and belongings"),
     ("Safeguards your biggest financial asset")]
  else []

/-! ### Projection lemmas for the five record builders -/

@[simp] lemma life_recommendation_policy_type (p : Profile) :
    (life_recommendation p).policy_type = "Life Insurance" := rfl

@[simp] lemma life_recommendation_confidence_score (p : Profile) :
    (life_recommendation p).confidence_score = calculate_confidence p ("Life Insurance") := rfl

@[simp] lemma life_recommendation_priority_band (p : Profile) :
    (life_recommendation p).priority_band =
      derive_priority_band (calculate_confidence p ("Life Insurance")) := rfl

@[simp] lemma life_recommendation_recommended_cover (p : Profile) :
    (life_recommendation p).recommended_cover = Cover.num (p.monthly_income * 12 * 10) := rfl

@[simp] lemma life_recommendation_why_it_matters (p : Profile) :
    (life_recommendation p).why_it_matters =
      [("Provides long-term financial protection"),
       ("Helps cover living costs, debt, and education")] ++ personalise_why_it_matters p := rfl

@[simp] lemma funeral_recommendation_policy_type (p : Profile) :
    (funeral_recommendation p).policy_type = "Funeral Cover" := rfl

@[simp] lemma funeral_recommendation_confidence_score (p : Profile) :
    (funeral_recommendation p).confidence_score = calculate_confidence p ("Funeral Cover") := rfl

@[simp] lemma funeral_recommendation_priority_band (p : Profile) :
    (funeral_recommendation p).priority_band =
      derive_priority_band (calculate_confidence p ("Funeral Cover")) := rfl

@[simp] lemma funeral_recommendation_recommended_cover (p : Profile) :
    (funeral_recommendation p).recommended_cover =
      Cover.num ((50000 + p.dependants * 25000 : ℤ) : ℚ) := rfl

@[simp] lemma funeral_recommendation_why_it_matters (p : Profile) :
    (funeral_recommendation p).why_it_matters =
      [("Covers immediate funeral expenses"),
       ("Pays out quickly when cash is needed")] ++ personalise_why_it_matters p := rfl

@[simp] lemma accidental_recommendation_policy_type (p : Profile) :
    (accidental_recommendation p).policy_type = "Accidental Cover" := rfl

@[simp] lemma accidental_recommendation_confidence_score (p : Profile) :
    (accidental_recommendation p).confidence_score =
      calculate_confidence p ("Accidental Cover") := rfl

@[simp] lemma accidental_recommendation_priority_band (p : Profile) :
    (accidental_recommendation p).priority_band =
      derive_priority_band (calculate_confidence p ("Accidental Cover")) := rfl

@[simp] lemma accidental_recommendation_recommended_cover (p : Profile) :
    (accidental_recommendation p).recommended_cover =
      Cover.num (p.monthly_income * 12 * 5) := rfl

@[simp] lemma accidental_recommendation_why_it_matters (p : Profile) :
    (accidental_recommendation p).why_it_matters =
      [("Covers accidental injury and disability"),
       ("Protects your income if you cannot work")] ++ personalise_why_it_matters p := rfl

@[simp] lemma vehicle_recommendation_policy_type (p : Profile) :
    (vehicle_recommendation p).policy_type = "Vehicle Insurance" := rfl

@[simp] lemma vehicle_recommendation_confidence_score (p : Profile) :
    (vehicle_recommendation p).confidence_score =
      calculate_confidence p ("Vehicle Insurance") := rfl

@[simp] lemma vehicle_recommendation_priority_band (p : Profile) :
    (vehicle_recommendation p).priority_band =
      derive_priority_band (calculate_confidence p ("Vehicle Insurance")) := rfl

@[simp] lemma vehicle_recommendation_recommended_cover (p : Profile) :
    (vehicle_recommendation p).recommended_cover =
      Cover.text ("Market value of the vehicle") := rfl

@[simp] lemma vehicle_recommendation_premium (p : Profile) :
    (vehicle_recommendation p).estimated_monthly_premium =
      some (round2 (p.monthly_income * 0.03)) := rfl

@[simp] lemma vehicle_recommendation_why_it_matters (p : Profile) :
    (vehicle_recommendation p).why_it_matters =
      [("Protects against accidents and theft"),
       ("Avoids large, unexpected repair costs")] ++ personalise_why_it_matters p := rfl

@[simp] lemma home_recommendation_policy_type (p : Profile) :
    (home_recommendation p).policy_type = "Home & Contents Insurance" := rfl

@[simp] lemma home_recommendation_confidence_score (p : Profile) :
    (home_recommendation p).confidence_score =
      calculate_confidence p ("Home & Contents Insurance") := rfl

@[simp] lemma home_recommendation_priority_band (p : Profile) :
    (home_recommendation p).priority_band =
      derive_priority_band (calculate_confidence p ("Home & Contents Insurance")) := rfl

@[simp] lemma home_recommendation_recommended_cover (p : Profile) :
    (home_recommendation p).recommended_cover =
      Cover.text ("Replacement value of home and contents") := rfl

@[simp] lemma home_recommendation_premium (p : Profile) :
    (home_recommendation p).estimated_monthly_premium =
      some (round2 (p.monthly_income * 0.02)) := rfl

@[simp] lemma home_recommendation_why_it_matters (p : Profile) :
    (home_recommendation p).why_it_matters =
      [("Protects your home and belongings"),
       ("Safeguards your biggest financial asset")] ++ personalise_why_it_matters p := rfl

@[simp] lemma rule_specific_reasons_life :
    rule_specific_reasons ("Life Insurance") =
      [("Provides long-term financial protection"),
       ("Helps cover living costs, debt, and education")] := by decide

@[simp] lemma rule_specific_reasons_funeral :
    rule_specific_reasons ("Funeral Cover") =
      [("Covers immediate funeral expenses"),
       ("Pays out quickly when cash is needed")] := by decide

@[simp] lemma rule_specific_reasons_accidental :
    rule_specific_reasons ("Accidental Cover") =
      [("Covers accidental injury and disability"),
       ("Protects your income if you cannot work")] := by decide

@[simp] lemma rule_specific_reasons_vehicle :
    rule_specific_reasons ("Vehicle Insurance") =
      [("Protects against accidents and theft"),
       ("Avoids large, unexpected repair costs")] := by decide

@[simp] lemma rule_specific_reasons_home :
    rule_specific_reasons ("Home & Contents Insurance") =
      [("Protects your home and belongings"),
       ("Safeguards your biggest financial asset")] := by decide

/-! ### General structural lemmas -/

/-- The confidence scorer always returns a value in `[50, 100]`: the base is
50, every branch only adds non-negative bonuses, and the result is capped at
100. -/
lemma calculate_confidence_bounds (p : Profile) (t : String) :
    50 ≤ calculate_confidence p t ∧ calculate_confidence p t ≤ 100 := by
  simp only [calculate_confidence]
  split_ifs <;> omega

/-- Every element of `recommend_policies p` is one of the five record
builders applied to `p`. -/
lemma mem_recommend_policies_cases (p : Profile) (r : Recommendation)
    (hr : r ∈ recommend_policies p) :
    r = life_recommendation p ∨ r = funeral_recommendation p ∨
      r = accidental_recommendation p ∨ r = vehicle_recommendation p ∨
      r = home_recommendation p := by
  simp only [recommend_policies, List.mem_append] at hr
  rcases hr with ((((h | h) | h) | h) | h) <;>
    first
      | (split_ifs at h <;> simp_all)
      | simp_all

/-- `recommend_policies` depends on the profile only through
`monthly_income`, `dependants`, `owns_car`, `owns_home` and the personalised
reasons (which read `age` and `monthly_income`). -/
lemma recommend_policies_congr_aux (a a2 : ℤ) (m : ℚ) (d : ℤ) (e e2 : String) (c h : Bool)
    (hp : personalise_why_it_matters ⟨a, m, d, e, c, h⟩ =
      personalise_why_it_matters ⟨a2, m, d, e2, c, h⟩) :
    recommend_policies ⟨a, m, d, e, c, h⟩ = recommend_policies ⟨a2, m, d, e2, c, h⟩ := by
  simp only [recommend_policies, life_recommendation, funeral_recommendation,
    accidental_recommendation, vehicle_recommendation, home_recommendation,
    calculate_confidence, hp]

/-! ### Concrete profiles used as inputs -/

/-- Profile with no dependants, no income and no assets: only Funeral Cover
should apply. -/
def p_no_assets : Profile :=
  { age := 30, monthly_income := 0, dependants := 0, employment_type := ("none"),
    owns_car := false, owns_home := false }

/-- The worked example of the spec: age 30, income 20000, two dependants,
car and home owner. -/
def p_baseline : Profile :=
  { age := 30, monthly_income := 20000, dependants := 2, employment_type := ("salaried"),
    owns_car := true, owns_home := true }

/-- A car owner with zero income: used to exhibit a Vehicle Insurance
recommendation (descriptive cover, no fixed premium in its rule). -/
def p_car_only : Profile :=
  { age := 30, monthly_income := 0, dependants := 0, employment_type := ("student"),
    owns_car := true, owns_home := false }

/-- A profile with a negative `dependants` field. -/
def p_negative_dependants : Profile :=
  { age := 30, monthly_income := 0, dependants := -1, employment_type := ("none"),
    owns_car := false, owns_home := false }

/-- A profile with all numeric fields negative. -/
def p_negative_fields : Profile :=
  { age := -5, monthly_income := -2000, dependants := -1, employment_type := ("none"),
    owns_car := false, owns_home := false }

/-! ### Claim theorems -/

/-- Claim C3: for every profile, the confidence score of each of the five
policy types equals the additive built-in heuristic — base 50, plus the
per-policy bonuses (Life: +30 if dependants over 0, +10 if income at least
15000; Funeral: +30 flat, +10 if dependants over 0; Accidental: +25 if
income over 0; Vehicle: +40 if owns_car; Home: +35 if owns_home, +5 if
income at least 20000) — clamped to a maximum of 100. -/
theorem calculate_confidence_additive_formula (p : Profile) :
    calculate_confidence p ("Life Insurance") =
      min (50 + (if p.dependants > 0 then 30 else 0) +
        (if p.monthly_income ≥ 15000 then 10 else 0)) 100 ∧
    calculate_confidence p ("Funeral Cover") =
      min (50 + 30 + (if p.dependants > 0 then 10 else 0)) 100 ∧
    calculate_confidence p ("Accidental Cover") =
      min (50 + (if p.monthly_income > 0 then 25 else 0)) 100 ∧
    calculate_confidence p ("Vehicle Insurance") =
      min (50 + (if p.owns_car then 40 else 0)) 100 ∧
    calculate_confidence p ("Home & Contents Insurance") =
      min (50 + (if p.owns_home then 35 else 0) +
        (if p.monthly_income ≥ 20000 then 5 else 0)) 100 :=
  ⟨rfl, rfl, rfl, rfl, rfl⟩

/-- Claim C4: for every profile, the engine emits exactly Life Insurance
(iff dependants over 0), Funeral Cover (always), Accidental Cover (iff
income over 0), Vehicle Insurance (iff owns_car) and Home & Contents
Insurance (iff owns_home), in exactly this rule order, never re-sorted; in
particular a profile with no dependants, no income and no assets yields
only Funeral Cover. -/
theorem recommend_policies_gating_order :
    (∀ p : Profile,
      (recommend_policies p).map Recommendation.policy_type =
        (if p.dependants > 0 then [("Life Insurance")] else []) ++
        [("Funeral Cover")] ++
        (if p.monthly_income > 0 then [("Accidental Cover")] else []) ++
        (if p.owns_car then [("Vehicle Insurance")] else []) ++
        (if p.owns_home then [("Home & Contents Insurance")] else [])) ∧
    (recommend_policies p_no_assets).map Recommendation.policy_type = [("Funeral Cover")] := by
  constructor
  · intro p
    simp only [recommend_policies]
    split_ifs <;> simp
  · norm_num [recommend_policies, p_no_assets]

/-- Claim C5: for the profile with age 30, income 20000, 2 dependants, car
and home: Life Insurance has cover 2400000 and confidence 90, Funeral Cover
has cover 100000 and confidence 90, Vehicle and Home each have confidence
90 (income 20000 meets the 20000 threshold exactly), and all four carry
priority band "best". -/
theorem baseline_profile_output :
    ((recommend_policies p_baseline).map fun r =>
        (r.policy_type, r.recommended_cover, r.confidence_score, r.priority_band)) =
      [(("Life Insurance"), Cover.num 2400000, 90, ("best")),
       (("Funeral Cover"), Cover.num 100000, 90, ("best")),
       (("Accidental Cover"), Cover.num 1200000, 75, ("medium")),
       (("Vehicle Insurance"), Cover.text ("Market value of the vehicle"), 90, ("best")),
       (("Home & Contents Insurance"), Cover.text ("Replacement value of home and contents"),
        90, ("best"))] := by
  norm_num [recommend_policies, p_baseline, calculate_confidence, derive_priority_band]
  decide

/-- Claim C6: for every profile, every confidence score in the returned
recommendations lies in the interval [0, 100]. -/
theorem confidence_between_zero_and_hundred (p : Profile) (r : Recommendation)
    (hr : r ∈ recommend_policies p) :
    0 ≤ r.confidence_score ∧ r.confidence_score ≤ 100 := by
  rcases mem_recommend_policies_cases p r hr with h | h | h | h | h <;> subst h <;>
    constructor <;> simp <;>
    first
      | exact le_trans (by norm_num) (calculate_confidence_bounds p _).1
      | exact (calculate_confidence_bounds p _).2

/-- Witness for claim C6 at the no-assets profile and its Funeral Cover
recommendation. -/
theorem confidence_between_witness :
    0 ≤ (funeral_recommendation p_no_assets).confidence_score ∧
      (funeral_recommendation p_no_assets).confidence_score ≤ 100 :=
  confidence_between_zero_and_hundred p_no_assets (funeral_recommendation p_no_assets)
    (by norm_num [recommend_policies, p_no_assets])

/-- Claim C10: for every profile, every returned confidence score is at
least 50 — the base score is never reduced, so the [0, 100] invariant
strengthens to [50, 100]. -/
theorem confidence_at_least_base (p : Profile) (r : Recommendation)
    (hr : r ∈ recommend_policies p) :
    50 ≤ r.confidence_score := by
  rcases mem_recommend_policies_cases p r hr with h | h | h | h | h <;> subst h <;> simp <;>
    exact (calculate_confidence_bounds p _).1

/-- Witness for claim C10 at the baseline profile and its Funeral Cover
recommendation. -/
theorem confidence_at_least_base_witness :
    50 ≤ (funeral_recommendation p_baseline).confidence_score :=
  confidence_at_least_base p_baseline (funeral_recommendation p_baseline)
    (by norm_num [recommend_policies, p_baseline])

/-- Claim C7: the band derivation maps confidence at least 85 to "best",
otherwise at least 70 to "medium", otherwise "optional" (inclusive lower
bounds, highest first), and every returned recommendation's priority band
is this function of its confidence score. -/
theorem priority_band_mapping :
    (∀ c : ℤ, derive_priority_band c =
        if c ≥ 85 then ("best") else if c ≥ 70 then ("medium") else ("optional")) ∧
    ∀ (p : Profile), ∀ r ∈ recommend_policies p,
      r.priority_band = derive_priority_band r.confidence_score := by
  refine ⟨fun c => rfl, fun p r hr => ?_⟩
  rcases mem_recommend_policies_cases p r hr with h | h | h | h | h <;> subst h <;> simp

/-- Witness for claim C7 at the baseline profile's Vehicle Insurance
recommendation. -/
theorem priority_band_mapping_witness :
    (vehicle_recommendation p_baseline).priority_band =
      derive_priority_band (vehicle_recommendation p_baseline).confidence_score :=
  priority_band_mapping.2 p_baseline (vehicle_recommendation p_baseline)
    (by norm_num [recommend_policies, p_baseline])

/-- Claim C9: two profiles that differ only in `employment_type` produce
identical outputs — the field is advisory and never read by the engine. -/
theorem employment_type_no_influence : ∀ (p : Profile) (e : String),
    recommend_policies { p with employment_type := e } = recommend_policies p := by
  intro p e
  obtain ⟨a, m, d, e0, c, h⟩ := p
  exact recommend_policies_congr_aux a a m d e e0 c h rfl

/-- Claim C8: for every profile the personalisation step produces exactly
two reasons — one age-band reason followed by one income-band reason — and
every returned recommendation's `why_it_matters` is its rule-specific
reasons in declared order followed by those two personalised reasons. -/
theorem why_it_matters_layout (p : Profile) :
    (personalise_why_it_matters p =
      [if p.age ≤ 25 then ("Well suited to your age group")
       else if 26 ≤ p.age ∧ p.age ≤ 40 then ("Relevant for your current life stage")
       else ("Important protection as responsibilities grow"),
       if p.monthly_income ≤ 10000 then ("Designed to fit a tight budget")
       else if p.monthly_income ≤ 30000 then ("Fits comfortably within your budget")
       else ("Provides strong cover without straining your budget")]) ∧
    ∀ r ∈ recommend_policies p,
      r.why_it_matters = rule_specific_reasons r.policy_type ++ personalise_why_it_matters p := by
  constructor
  · simp only [personalise_why_it_matters]
    split_ifs <;> simp
  · intro r hr
    rcases mem_recommend_policies_cases p r hr with h | h | h | h | h <;> subst h <;> simp

/-- Witness for claim C8 at the car-only profile's Vehicle Insurance
recommendation. -/
theorem why_it_matters_layout_witness :
    (vehicle_recommendation p_car_only).why_it_matters =
      rule_specific_reasons (vehicle_recommendation p_car_only).policy_type ++
        personalise_why_it_matters p_car_only :=
  (why_it_matters_layout p_car_only).2 (vehicle_recommendation p_car_only)
    (by norm_num [recommend_policies, p_car_only])

/-- Counterexample to claim C1: the car-only profile receives a Vehicle
Insurance recommendation whose cover is the descriptive string, yet whose
estimated monthly premium is not null — the engine always fills it from
monthly income. -/
theorem vehicle_premium_defined_cex :
    vehicle_recommendation p_car_only ∈ recommend_policies p_car_only ∧
    (vehicle_recommendation p_car_only).recommended_cover =
      Cover.text ("Market value of the vehicle") ∧
    (vehicle_recommendation p_car_only).estimated_monthly_premium ≠ none := by
  refine ⟨by norm_num [recommend_policies, p_car_only], rfl, ?_⟩
  simp

/-- Claim C1 as amended: recommendations with descriptive (non-numeric)
covers do not get a null premium; Vehicle Insurance carries
round(monthly_income × 0.03, 2) and Home & Contents carries
round(monthly_income × 0.02, 2). -/
theorem descriptive_cover_premium_formula (p : Profile) (r : Recommendation)
    (hr : r ∈ recommend_policies p) :
    (r.policy_type = "Vehicle Insurance" →
      r.recommended_cover = Cover.text ("Market value of the vehicle") ∧
      r.estimated_monthly_premium = some (round2 (p.monthly_income * 0.03))) ∧
    (r.policy_type = "Home & Contents Insurance" →
      r.recommended_cover = Cover.text ("Replacement value of home and contents") ∧
      r.estimated_monthly_premium = some (round2 (p.monthly_income * 0.02))) := by
  rcases mem_recommend_policies_cases p r hr with h | h | h | h | h <;> subst h <;>
    constructor <;> intro hpt <;>
    simp only [life_recommendation_policy_type, funeral_recommendation_policy_type,
      accidental_recommendation_policy_type, vehicle_recommendation_policy_type,
      home_recommendation_policy_type] at hpt <;>
    first
      | exact absurd hpt (by decide)
      | exact ⟨rfl, rfl⟩

/-- Witness for the amended claim C1 at the car-only profile's Vehicle
Insurance recommendation. -/
theorem descriptive_cover_premium_witness :
    (vehicle_recommendation p_car_only).recommended_cover =
      Cover.text ("Market value of the vehicle") ∧
    (vehicle_recommendation p_car_only).estimated_monthly_premium =
      some (round2 (p_car_only.monthly_income * 0.03)) :=
  (descriptive_cover_premium_formula p_car_only (vehicle_recommendation p_car_only)
    (by norm_num [recommend_policies, p_car_only])).1 rfl

/-- Counterexample to claim C2: a profile with dependants = -1 does not
produce the same output as the profile with dependants = 0 — the funeral
cover becomes 25000 instead of 50000, so negative fields are not treated
as zero. -/
theorem negative_dependants_output_differs :
    recommend_policies p_negative_dependants ≠
      recommend_policies { p_negative_dependants with dependants := 0 } := by
  intro hEq
  have h1 : recommend_policies p_negative_dependants =
      [funeral_recommendation p_negative_dependants] := by
    norm_num [recommend_policies, p_negative_dependants]
  have h2 : recommend_policies { p_negative_dependants with dependants := 0 } =
      [funeral_recommendation { p_negative_dependants with dependants := 0 }] := by
    norm_num [recommend_policies, p_negative_dependants]
  rw [h1, h2] at hEq
  simp only [List.cons.injEq, and_true] at hEq
  have hc := congrArg Recommendation.recommended_cover hEq
  norm_num [p_negative_dependants] at hc

/-- Claim C2 as amended: negative numeric fields are not replaced by zero
in the output (covers and premiums use the raw values, see the
counterexample); what does hold is that confidence scoring treats
non-positive income and dependants exactly like zero, and a non-positive
age yields the same output as age 0. -/
theorem negative_fields_scoring_equiv :
    (∀ (p : Profile) (t : String), p.monthly_income ≤ 0 → p.dependants ≤ 0 →
      calculate_confidence p t =
        calculate_confidence { p with monthly_income := 0, dependants := 0 } t) ∧
    (∀ p : Profile, p.age ≤ 0 →
      recommend_policies p = recommend_policies { p with age := 0 }) := by
  constructor
  · intro p t hm hd
    obtain ⟨a, m, d, e, c, h⟩ := p
    simp only at hm hd
    have h1 : ¬(d > 0) := by omega
    have h2 : ¬(m ≥ 15000) := not_le.mpr (by linarith)
    have h3 : ¬(m > 0) := not_lt.mpr hm
    have h4 : ¬(m ≥ 20000) := not_le.mpr (by linarith)
    norm_num [calculate_confidence, h1, h2, h3, h4]
  · intro p ha
    obtain ⟨a, m, d, e, c, h⟩ := p
    simp only at ha
    have h25 : a ≤ 25 := by omega
    have hp : personalise_why_it_matters ⟨a, m, d, e, c, h⟩ =
        personalise_why_it_matters ⟨0, m, d, e, c, h⟩ := by
      simp [personalise_why_it_matters, h25]
    exact recommend_policies_congr_aux a 0 m d e e c h hp

/-- Witness for the amended claim C2 at the all-negative profile. -/
theorem negative_fields_scoring_witness :
    calculate_confidence p_negative_fields ("Life Insurance") =
      calculate_confidence
        { p_negative_fields with monthly_income := 0, dependants := 0 } ("Life Insurance") ∧
    recommend_policies p_negative_fields =
      recommend_policies { p_negative_fields with age := 0 } :=
  ⟨negative_fields_scoring_equiv.1 p_negative_fields ("Life Insurance")
      (by norm_num [p_negative_fields]) (by norm_num [p_negative_fields]),
   negative_fields_scoring_equiv.2 p_negative_fields (by norm_num [p_negative_fields])⟩

end NeedsEngine
